import Mathlib

/-!
Verification of the `shrink` backend gateway (src/backend/main.py).

The service is a stateless Flask application with five routes.  We give a
shallow embedding: each Python handler becomes a pure Lean function from the
process-wide credential set, an oracle record standing for the external
collaborators, and the request's parsed inputs, to an HTTP response together
with the list of upstream calls the handler performed.  Python truthiness on
optional strings (`if not x`) is modelled by `pyNot`.  The outcome of
`request.get_json()` (called without `silent` or `force`) is part of the
request: either the parsed JSON object, or the status of the HTTPException
Flask raises when the request carries no parseable JSON body.  Flask's
routing (method restriction per decorator) is modelled by `flaskApp`.
-/

namespace Shrink

/-- A chat message `{role, content}` as handled by `/chat`. -/
structure Message where
  role : String
  content : String
deriving DecidableEq, Repr

/-- The process-wide credential set loaded at startup.
`none` is the "absent" state the except-branch of the loader produces. -/
structure Credentials where
  openai_api_key : Option String
  livekit_api_key : Option String
  livekit_api_secret : Option String
deriving DecidableEq, Repr

/-- Python truthiness negation on an optional string: `not x` is true
for `None` and for the empty string. -/
def pyNot : Option String → Bool
  | none => true
  | some s => s == ""

/-- The parsed JSON object of a request body.  Each handler reads its own
optional keys from it with `data.get`; a key the client did not send is
`none`. -/
structure JsonBody where
  identity : Option String
  name : Option String
  messages : Option (List Message)
  text : Option String
deriving DecidableEq, Repr

/-- Response bodies produced by the handlers: a plain string return,
a `jsonify` object with string values, or raw bytes. -/
inductive Body where
  | text : String → Body
  | json : List (String × String) → Body
  | binary : List Nat → Body
deriving DecidableEq, Repr

/-- An HTTP response: status code, body, and the explicitly set
Content-Type header when the handler sets one. -/
structure HttpResponse where
  status : Nat
  body : Body
  contentType : Option String
deriving DecidableEq, Repr

/-- `livekit_api.VideoGrant(room_join=True, room=...)`. -/
structure VideoGrant where
  room_join : Bool
  room : String
deriving DecidableEq, Repr

/-- The access token built by `generate_token` before serialization:
`AccessToken(key, secret).with_identity(i).with_name(n).with_grants(g)`. -/
structure AccessToken where
  api_key : String
  api_secret : String
  identity : String
  name : String
  grants : VideoGrant
deriving DecidableEq, Repr

/-- One part of a multipart upload, as read from `request.files`. -/
structure FilePart where
  filename : String
  mimetype : String
  stream : List Nat
deriving DecidableEq, Repr

/-- A record of one call to an external collaborator. -/
inductive UpstreamCall where
  | signToken (token : AccessToken)
  | chatCompletion (model : String) (messages : List Message)
  | transcription (model : String) (filename : String) (stream : List Nat)
      (mimetype : String)
  | speech (model : String) (voice : String) (input : String) (format : String)
deriving DecidableEq, Repr

/-- `request.get_json()` without `silent` or `force` raises an
HTTPException when the request has no parseable JSON body: 415
Unsupported Media Type (Flask 2.1+) when the Content-Type is not
application/json — in particular for a POST with no body at all — and
400 Bad Request when the Content-Type is JSON but the payload does not
parse.  No handler catches it, so the framework answers with that status;
its HTML error page is abstracted to a fixed text body.  No upstream call
has been made at that point. -/
def getJsonFailure (st : Nat) : HttpResponse × List UpstreamCall :=
  (⟨st, Body.text "get_json failed", none⟩, [])

/-- Oracles for the external collaborators.  Each returns `Except` so a
raised exception in the Python `try` block is an `error` value. -/
structure Upstreams where
  to_jwt : AccessToken → Except String String
  chatCompletionsCreate : String → List Message → Except String String
  transcriptionsCreate : String → String → List Nat → String →
      Except String String
  speechCreate : String → String → String → String → Except String (List Nat)

/-- Resource path built by `get_secret`:
`projects/{project_id}/secrets/{secret_id}/versions/{version_id}`. -/
def secretPath (project_id : String) (secret_id : String)
    (version_id : String) : String :=
  "projects/" ++ project_id ++ "/secrets/" ++ secret_id ++ "/versions/"
    ++ version_id

/-- `get_secret(secret_id)` with the fixed project `shrink-1` and the
`latest` version qualifier.  `store` is the secrets-store collaborator. -/
def get_secret (store : String → Except String String)
    (secret_id : String) : Except String String :=
  store (secretPath "shrink-1" secret_id "latest")

/-- The module-level secret loading (main.py lines 20-36): fetch the three
secrets in order inside one `try`; on any failure set every credential
field to absent and log the error; on success store all three and log
success.  Returns the resulting credential set and the log lines. -/
def loadSecrets (store : String → Except String String) :
    Credentials × List String :=
  match get_secret store "openai-api-key" with
  | Except.error e => (⟨none, none, none⟩, ["ERROR loading secrets: " ++ e])
  | Except.ok openai_api_key =>
    match get_secret store "livekit-api-key" with
    | Except.error e => (⟨none, none, none⟩, ["ERROR loading secrets: " ++ e])
    | Except.ok livekit_api_key =>
      match get_secret store "livekit-api-secret" with
      | Except.error e =>
          (⟨none, none, none⟩, ["ERROR loading secrets: " ++ e])
      | Except.ok livekit_api_secret =>
          (⟨some openai_api_key, some livekit_api_key,
              some livekit_api_secret⟩,
            ["Secrets loaded successfully."])

/-- The fixed system prompt prepended by `/chat`. -/
def systemPrompt : String := "You are a helpful assistant."

/-- Handler for `GET /`. -/
def hello : HttpResponse × List UpstreamCall :=
  (⟨200, Body.text "Backend is running!", none⟩, [])

/-- Handler for `POST /generate-livekit-token`.  The credential check
(main.py lines 48-49) precedes `data = request.get_json()` (line 52);
when the body parses, `data.get('identity', 'default-user')` and
`data.get('name', 'Default User')` supply the defaults. -/
def generate_token (creds : Credentials) (ups : Upstreams)
    (getJsonResult : Except Nat JsonBody) :
    HttpResponse × List UpstreamCall :=
  if pyNot creds.livekit_api_key || pyNot creds.livekit_api_secret then
    (⟨500, Body.json [("error", "LiveKit configuration missing")], none⟩, [])
  else
    match getJsonResult with
    | Except.error st => getJsonFailure st
    | Except.ok data =>
      let user_identity := data.identity.getD "default-user"
      let user_name := data.name.getD "Default User"
      let token : AccessToken :=
        ⟨creds.livekit_api_key.getD "", creds.livekit_api_secret.getD "",
          user_identity, user_name, ⟨true, "my-conversation-room"⟩⟩
      match ups.to_jwt token with
      | Except.ok jwt_token =>
          (⟨200, Body.json [("identity", user_identity),
              ("token", jwt_token)], none⟩,
            [UpstreamCall.signToken token])
      | Except.error _ =>
          (⟨500, Body.json [("error", "Could not generate LiveKit token")],
              none⟩,
            [UpstreamCall.signToken token])

/-- Handler for `POST /chat`.  The key check (main.py lines 77-78)
precedes `data = request.get_json()` (line 80); when the body parses,
`data.get('messages', [])` defaults the list to `[]`. -/
def chat_endpoint (creds : Credentials) (ups : Upstreams)
    (getJsonResult : Except Nat JsonBody) :
    HttpResponse × List UpstreamCall :=
  if pyNot creds.openai_api_key then
    (⟨500, Body.json [("error", "OpenAI configuration missing")], none⟩, [])
  else
    match getJsonResult with
    | Except.error st => getJsonFailure st
    | Except.ok data =>
      let messages := data.messages.getD []
      if messages.isEmpty then
        (⟨400, Body.json [("error", "No messages provided")], none⟩, [])
      else
        let full_conversation := Message.mk "system" systemPrompt :: messages
        match ups.chatCompletionsCreate "gpt-4.1" full_conversation with
        | Except.ok reply =>
            (⟨200, Body.json [("reply", reply)], none⟩,
              [UpstreamCall.chatCompletion "gpt-4.1" full_conversation])
        | Except.error _ =>
            (⟨500, Body.json [("error",
                "Failed to get response from OpenAI")], none⟩,
              [UpstreamCall.chatCompletion "gpt-4.1" full_conversation])

/-- Handler for `POST /transcribe`.  `audioFileArg` is the `audio_file`
part of the multipart form when present. -/
def transcribe_endpoint (creds : Credentials) (ups : Upstreams)
    (audioFileArg : Option FilePart) : HttpResponse × List UpstreamCall :=
  if pyNot creds.openai_api_key then
    (⟨500, Body.json [("error", "OpenAI configuration missing")], none⟩, [])
  else
    match audioFileArg with
    | none => (⟨400, Body.json [("error", "No audio file part")], none⟩, [])
    | some file =>
      if file.filename == "" then
        (⟨400, Body.json [("error", "No selected file")], none⟩, [])
      else
        match ups.transcriptionsCreate "gpt-4o-mini-transcribe" file.filename
            file.stream file.mimetype with
        | Except.ok t =>
            (⟨200, Body.json [("text", t)], none⟩,
              [UpstreamCall.transcription "gpt-4o-mini-transcribe"
                file.filename file.stream file.mimetype])
        | Except.error _ =>
            (⟨500, Body.json [("error", "Failed to transcribe audio")],
                none⟩,
              [UpstreamCall.transcription "gpt-4o-mini-transcribe"
                file.filename file.stream file.mimetype])

/-- Handler for `POST /synthesize`.  The key check (main.py lines 137-138)
precedes `data = request.get_json()` (line 140); when the body parses,
`data.get('text')` yields `None` for a missing key. -/
def synthesize_endpoint (creds : Credentials) (ups : Upstreams)
    (getJsonResult : Except Nat JsonBody) :
    HttpResponse × List UpstreamCall :=
  if pyNot creds.openai_api_key then
    (⟨500, Body.json [("error", "OpenAI configuration missing")], none⟩, [])
  else
    match getJsonResult with
    | Except.error st => getJsonFailure st
    | Except.ok data =>
      if pyNot data.text then
        (⟨400, Body.json [("error", "No text provided")], none⟩, [])
      else
        let text_to_speak := data.text.getD ""
        match ups.speechCreate "gpt-4o-mini-tts" "alloy" text_to_speak "mp3"
            with
        | Except.ok audio_content =>
            (⟨200, Body.binary audio_content, some "audio/mpeg"⟩,
              [UpstreamCall.speech "gpt-4o-mini-tts" "alloy" text_to_speak
                "mp3"])
        | Except.error _ =>
            (⟨500, Body.json [("error", "Failed to synthesize speech")],
                none⟩,
              [UpstreamCall.speech "gpt-4o-mini-tts" "alloy" text_to_speak
                "mp3"])

/-- One HTTP request: method, path, the outcome of parsing its JSON body
(`Except.error st` when `request.get_json()` would raise the
HTTPException with status `st`), and the `audio_file` multipart part when
present. -/
structure Request where
  method : String
  path : String
  getJson : Except Nat JsonBody
  audio_file : Option FilePart

/-- Route dispatch of the Flask app.  `@app.route('/')` registers only the
GET method (the Flask default); the other four decorators register only
POST.  Flask itself answers OPTIONS on every route, and HEAD on GET
routes, with an automatic response (modelled as 200 with an empty body,
its headers out of scope); any other unregistered method gets 405, and an
unknown path 404. -/
def route (creds : Credentials) (ups : Upstreams) (req : Request) :
    HttpResponse × List UpstreamCall :=
  if req.path == "/" then
    if req.method == "GET" then hello
    else if req.method == "HEAD" || req.method == "OPTIONS" then
      (⟨200, Body.text "", none⟩, [])
    else (⟨405, Body.text "Method Not Allowed", none⟩, [])
  else if req.path == "/generate-livekit-token" then
    if req.method == "POST" then generate_token creds ups req.getJson
    else if req.method == "OPTIONS" then (⟨200, Body.text "", none⟩, [])
    else (⟨405, Body.text "Method Not Allowed", none⟩, [])
  else if req.path == "/chat" then
    if req.method == "POST" then chat_endpoint creds ups req.getJson
    else if req.method == "OPTIONS" then (⟨200, Body.text "", none⟩, [])
    else (⟨405, Body.text "Method Not Allowed", none⟩, [])
  else if req.path == "/transcribe" then
    if req.method == "POST" then transcribe_endpoint creds ups req.audio_file
    else if req.method == "OPTIONS" then (⟨200, Body.text "", none⟩, [])
    else (⟨405, Body.text "Method Not Allowed", none⟩, [])
  else if req.path == "/synthesize" then
    if req.method == "POST" then synthesize_endpoint creds ups req.getJson
    else if req.method == "OPTIONS" then (⟨200, Body.text "", none⟩, [])
    else (⟨405, Body.text "Method Not Allowed", none⟩, [])
  else (⟨404, Body.text "Not Found", none⟩, [])

/-- Handling one request at the server level: no handler assigns to the
module-level credential globals, so the credential state after a request
is whatever it was before. -/
def flaskApp (creds : Credentials) (ups : Upstreams) (req : Request) :
    Credentials × HttpResponse × List UpstreamCall :=
  (creds, route creds ups req)

/-- Deterministic collaborator stub used for concrete evaluations. -/
def stubUps : Upstreams :=
  ⟨fun t => Except.ok ("jwt-" ++ t.identity),
   fun _ msgs => Except.ok ("reply-" ++ toString msgs.length),
   fun _ fn _ _ => Except.ok ("text-" ++ fn),
   fun _ _ input _ => Except.ok [input.length]⟩

/-- Claim C1: with the AI provider key present, for every non-empty input
list `messages` the `/chat` handler submits to the upstream chat-completion
API exactly one request, with the fixed model identifier, whose message
sequence is one longer than the input, starts with a system-role message
carrying the fixed instruction string, and continues with exactly the
input messages in their original order. -/
theorem chat_submits_system_prefixed_conversation
    (creds : Credentials) (ups : Upstreams) (messages : List Message)
    (identityArg nameArg : Option String) (textArg : Option String)
    (hkey : pyNot creds.openai_api_key = false) (hne : messages ≠ []) :
    ∃ submitted : List Message,
      (chat_endpoint creds ups (Except.ok
          ⟨identityArg, nameArg, some messages, textArg⟩)).2 =
        [UpstreamCall.chatCompletion "gpt-4.1" submitted] ∧
      submitted.length = messages.length + 1 ∧
      submitted.head? = some (Message.mk "system" systemPrompt) ∧
      submitted.tail = messages := by
  refine ⟨Message.mk "system" systemPrompt :: messages, ?_, by simp, rfl, rfl⟩
  unfold chat_endpoint
  rw [hkey]
  simp only [Bool.false_eq_true, if_false, Option.getD_some]
  rw [if_neg (by simp [List.isEmpty_iff, hne])]
  cases ups.chatCompletionsCreate "gpt-4.1"
      (Message.mk "system" systemPrompt :: messages) <;> rfl

/-- Witness for C1 at `messages = [{role:"user", content:"hi"}]` with the
key present: the upstream receives a 2-element sequence headed by the
system message. -/
theorem chat_submits_system_prefixed_conversation_witness :
    pyNot (Credentials.mk (some "k") none none).openai_api_key = false ∧
    [Message.mk "user" "hi"] ≠ ([] : List Message) ∧
    ∃ submitted : List Message,
      (chat_endpoint ⟨some "k", none, none⟩ stubUps
          (Except.ok ⟨none, none, some [Message.mk "user" "hi"], none⟩)).2 =
        [UpstreamCall.chatCompletion "gpt-4.1" submitted] ∧
      submitted.length = [Message.mk "user" "hi"].length + 1 ∧
      submitted.head? = some (Message.mk "system" systemPrompt) ∧
      submitted.tail = [Message.mk "user" "hi"] :=
  ⟨rfl, by decide,
    chat_submits_system_prefixed_conversation ⟨some "k", none, none⟩ stubUps
      [Message.mk "user" "hi"] none none none rfl (by decide)⟩

/-- Claim C3 as stated is false: the health route registers only the GET
method, so a POST to `/` is answered by the router with 405 Method Not
Allowed, not 200. -/
theorem root_post_method_not_allowed :
    (flaskApp ⟨some "k", some "a", some "b"⟩ stubUps
        ⟨"POST", "/", Except.ok ⟨none, none, none, none⟩, none⟩).2.1 =
      ⟨405, Body.text "Method Not Allowed", none⟩ ∧
    (flaskApp ⟨some "k", some "a", some "b"⟩ stubUps
        ⟨"POST", "/", Except.ok ⟨none, none, none, none⟩, none⟩).2.1.status
      ≠ 200 :=
  ⟨rfl, by decide⟩

/-- Claim C3 (amended): every GET request to `/` receives HTTP 200 with
the fixed plain-text body "Backend is running!", in every credential
state, with no upstream call. -/
theorem root_get_returns_running
    (creds : Credentials) (ups : Upstreams)
    (getJsonArg : Except Nat JsonBody) (audioFileArg : Option FilePart) :
    flaskApp creds ups ⟨"GET", "/", getJsonArg, audioFileArg⟩ =
      (creds, ⟨200, Body.text "Backend is running!", none⟩, []) := rfl

/-- Claim C5 as stated is false: when the AI provider key is absent, a
POST to `/chat` with empty `messages` returns 500 (the configuration check
runs first), not 400; no upstream call is made. -/
theorem chat_empty_messages_missing_key_returns_500 :
    (chat_endpoint ⟨none, none, none⟩ stubUps
        (Except.ok ⟨none, none, some [], none⟩)).1.status = 500 ∧
    (chat_endpoint ⟨none, none, none⟩ stubUps
        (Except.ok ⟨none, none, some [], none⟩)).1.status ≠ 400 ∧
    (chat_endpoint ⟨none, none, none⟩ stubUps
        (Except.ok ⟨none, none, some [], none⟩)).2 = [] := by
  refine ⟨rfl, by decide, rfl⟩

/-- Claim C5 (amended): when the AI provider key is present, every POST to
`/chat` whose `messages` list is empty (or whose body lacks the key, which
defaults to empty) returns HTTP 400 with no upstream call attempted. -/
theorem chat_empty_messages_returns_400
    (creds : Credentials) (ups : Upstreams)
    (identityArg nameArg : Option String)
    (messagesArg : Option (List Message)) (textArg : Option String)
    (hkey : pyNot creds.openai_api_key = false)
    (hempty : messagesArg.getD [] = []) :
    chat_endpoint creds ups
        (Except.ok ⟨identityArg, nameArg, messagesArg, textArg⟩) =
      (⟨400, Body.json [("error", "No messages provided")], none⟩, []) := by
  unfold chat_endpoint
  rw [hkey]
  simp [hempty]

/-- Witness for the amended C5 at a concrete credential set with the key
present and an explicitly empty `messages` list. -/
theorem chat_empty_messages_returns_400_witness :
    pyNot (Credentials.mk (some "k") none none).openai_api_key = false ∧
    (some ([] : List Message)).getD [] = [] ∧
    chat_endpoint ⟨some "k", none, none⟩ stubUps
        (Except.ok ⟨none, none, some [], none⟩) =
      (⟨400, Body.json [("error", "No messages provided")], none⟩, []) :=
  ⟨rfl, rfl,
    chat_empty_messages_returns_400 ⟨some "k", none, none⟩ stubUps
      none none (some []) none rfl rfl⟩

/-- Claim C9: no request handler mutates the process-wide credential set:
after handling any request the three credential fields are what they were
before, and repeating the identical request yields the identical result. -/
theorem handlers_do_not_mutate_credentials
    (creds : Credentials) (ups : Upstreams) (req : Request) :
    (flaskApp creds ups req).1 = creds ∧
    flaskApp (flaskApp creds ups req).1 ups req = flaskApp creds ups req :=
  ⟨rfl, rfl⟩

/-- Claim C2: on every credential-dependent route, when a required
credential is absent the handler returns HTTP 500 with the fixed
configuration-error body and performs zero upstream calls. -/
theorem missing_credential_returns_500_no_upstream
    (creds : Credentials) (ups : Upstreams)
    (dataArg : Except Nat JsonBody) (audioFileArg : Option FilePart) :
    (creds.livekit_api_key = none ∨ creds.livekit_api_secret = none →
      generate_token creds ups dataArg =
        (⟨500, Body.json [("error", "LiveKit configuration missing")], none⟩,
          [])) ∧
    (creds.openai_api_key = none →
      chat_endpoint creds ups dataArg =
        (⟨500, Body.json [("error", "OpenAI configuration missing")], none⟩,
          []) ∧
      transcribe_endpoint creds ups audioFileArg =
        (⟨500, Body.json [("error", "OpenAI configuration missing")], none⟩,
          []) ∧
      synthesize_endpoint creds ups dataArg =
        (⟨500, Body.json [("error", "OpenAI configuration missing")], none⟩,
          [])) := by
  constructor
  · intro h
    unfold generate_token
    rcases h with h | h <;> simp [pyNot, h]
  · intro h
    refine ⟨?_, ?_, ?_⟩
    · unfold chat_endpoint
      simp [pyNot, h]
    · unfold transcribe_endpoint
      simp [pyNot, h]
    · unfold synthesize_endpoint
      simp [pyNot, h]

/-- Witness for C2 at the all-absent credential set: each of the four
routes answers 500 with its fixed configuration message and an empty
upstream trace. -/
theorem missing_credential_returns_500_no_upstream_witness :
    Credentials.livekit_api_key ⟨none, none, none⟩ = none ∧
    generate_token ⟨none, none, none⟩ stubUps
        (Except.ok ⟨none, none, none, none⟩) =
      (⟨500, Body.json [("error", "LiveKit configuration missing")], none⟩,
        []) ∧
    chat_endpoint ⟨none, none, none⟩ stubUps
        (Except.ok ⟨none, none, none, none⟩) =
      (⟨500, Body.json [("error", "OpenAI configuration missing")], none⟩,
        []) ∧
    transcribe_endpoint ⟨none, none, none⟩ stubUps none =
      (⟨500, Body.json [("error", "OpenAI configuration missing")], none⟩,
        []) ∧
    synthesize_endpoint ⟨none, none, none⟩ stubUps
        (Except.ok ⟨none, none, none, none⟩) =
      (⟨500, Body.json [("error", "OpenAI configuration missing")], none⟩,
        []) := by
  have T := missing_credential_returns_500_no_upstream ⟨none, none, none⟩
    stubUps (Except.ok ⟨none, none, none, none⟩) none
  exact ⟨rfl, T.1 (Or.inl rfl), (T.2 rfl).1, (T.2 rfl).2.1, (T.2 rfl).2.2⟩

/-- Claim C4 as stated is false: a POST to `/generate-livekit-token` with
no request body never reaches the handler's defaults, even with both
platform credentials present: `data = request.get_json()` (main.py line
52, called without `silent` or `force`) raises on a body-less request
(415 Unsupported Media Type in Flask 2.1+, since the request carries no
JSON Content-Type); the handler does not catch it, no token is signed,
and the response status is not 200. -/
theorem token_post_without_body_not_200 :
    generate_token ⟨none, some "lk", some "ls"⟩ stubUps
        (Except.error 415) =
      (⟨415, Body.text "get_json failed", none⟩, []) ∧
    (generate_token ⟨none, some "lk", some "ls"⟩ stubUps
        (Except.error 415)).1.status ≠ 200 :=
  ⟨rfl, by decide⟩

/-- Claim C4 (amended): a POST to `/generate-livekit-token` whose JSON
body parses but supplies neither `identity` nor `name` (e.g. the body
`{}`), with both platform credentials present and the signing step
succeeding, uses the defaults identity="default-user" and
name="Default User" and returns HTTP 200 with the JSON object
{identity, token}; a request with no parseable JSON body instead
surfaces the error status of `request.get_json()` with nothing signed. -/
theorem token_defaults_on_fieldless_body
    (creds : Credentials) (ups : Upstreams) (jwt : String)
    (messagesArg : Option (List Message)) (textArg : Option String)
    (hk : pyNot creds.livekit_api_key = false)
    (hs : pyNot creds.livekit_api_secret = false)
    (hsign : ups.to_jwt ⟨creds.livekit_api_key.getD "",
        creds.livekit_api_secret.getD "", "default-user", "Default User",
        ⟨true, "my-conversation-room"⟩⟩ = Except.ok jwt) :
    generate_token creds ups (Except.ok ⟨none, none, messagesArg, textArg⟩) =
      (⟨200, Body.json [("identity", "default-user"), ("token", jwt)], none⟩,
        [UpstreamCall.signToken ⟨creds.livekit_api_key.getD "",
          creds.livekit_api_secret.getD "", "default-user", "Default User",
          ⟨true, "my-conversation-room"⟩⟩]) ∧
    ∀ st : Nat, generate_token creds ups (Except.error st) =
      (⟨st, Body.text "get_json failed", none⟩, []) := by
  constructor
  · unfold generate_token
    rw [hk, hs]
    simp [hsign]
  · intro st
    unfold generate_token
    rw [hk, hs]
    rfl

/-- Witness for the amended C4: concrete platform credentials, the body
`{}`, the stub signer succeeding; the response is 200 with the default
identity, and a parse failure surfaces its status with nothing signed. -/
theorem token_defaults_on_fieldless_body_witness :
    pyNot (Credentials.mk none (some "lk") (some "ls")).livekit_api_key
      = false ∧
    stubUps.to_jwt ⟨"lk", "ls", "default-user", "Default User",
        ⟨true, "my-conversation-room"⟩⟩ = Except.ok "jwt-default-user" ∧
    generate_token ⟨none, some "lk", some "ls"⟩ stubUps
        (Except.ok ⟨none, none, none, none⟩) =
      (⟨200, Body.json [("identity", "default-user"),
          ("token", "jwt-default-user")], none⟩,
        [UpstreamCall.signToken ⟨"lk", "ls", "default-user", "Default User",
          ⟨true, "my-conversation-room"⟩⟩]) ∧
    generate_token ⟨none, some "lk", some "ls"⟩ stubUps (Except.error 400) =
      (⟨400, Body.text "get_json failed", none⟩, []) := by
  have T := token_defaults_on_fieldless_body ⟨none, some "lk", some "ls"⟩
    stubUps "jwt-default-user" none none rfl rfl rfl
  exact ⟨rfl, rfl, T.1, T.2 400⟩

/-- Claim C6: if the startup secret fetch fails for any of the three
secrets, all three credential fields end up absent, the error is logged,
and the process keeps serving: the root route still answers 200 with the
fixed health string. -/
theorem secret_load_failure_fails_open
    (store : String → Except String String)
    (h : ∃ sid, sid ∈ ["openai-api-key", "livekit-api-key",
        "livekit-api-secret"] ∧ ∃ e, get_secret store sid = Except.error e) :
    (loadSecrets store).1 = ⟨none, none, none⟩ ∧
    (∃ msg, (loadSecrets store).2 = ["ERROR loading secrets: " ++ msg]) ∧
    ∀ (ups : Upstreams) (req : Request), req.method = "GET" →
      req.path = "/" →
      (flaskApp (loadSecrets store).1 ups req).2.1 =
        ⟨200, Body.text "Backend is running!", none⟩ := by
  obtain ⟨sid, hmem, e, herr⟩ := h
  simp only [List.mem_cons, List.not_mem_nil, or_false] at hmem
  have key : (loadSecrets store).1 = ⟨none, none, none⟩ ∧
      ∃ msg, (loadSecrets store).2 = ["ERROR loading secrets: " ++ msg] := by
    unfold loadSecrets
    cases h1 : get_secret store "openai-api-key" with
    | error e1 => exact ⟨rfl, ⟨e1, rfl⟩⟩
    | ok v1 =>
      cases h2 : get_secret store "livekit-api-key" with
      | error e2 => exact ⟨rfl, ⟨e2, rfl⟩⟩
      | ok v2 =>
        cases h3 : get_secret store "livekit-api-secret" with
        | error e3 => exact ⟨rfl, ⟨e3, rfl⟩⟩
        | ok v3 =>
          rcases hmem with rfl | rfl | rfl
          · rw [h1] at herr; cases herr
          · rw [h2] at herr; cases herr
          · rw [h3] at herr; cases herr
  refine ⟨key.1, key.2, ?_⟩
  intro ups req hm hp
  simp [flaskApp, route, hp, hm, hello]

/-- Concrete store that always fails, standing for an unreachable or
denying secrets backend. -/
def failingStore : String → Except String String :=
  fun _ => Except.error "permission denied"

/-- Witness for C6: with a store that denies every access, the loaded
credential set is all-absent, the error line is logged, and a GET to `/`
still answers 200. -/
theorem secret_load_failure_fails_open_witness :
    (∃ sid, sid ∈ ["openai-api-key", "livekit-api-key",
        "livekit-api-secret"] ∧
      ∃ e, get_secret failingStore sid = Except.error e) ∧
    (loadSecrets failingStore).1 = ⟨none, none, none⟩ ∧
    (∃ msg, (loadSecrets failingStore).2 =
      ["ERROR loading secrets: " ++ msg]) ∧
    (flaskApp (loadSecrets failingStore).1 stubUps
        ⟨"GET", "/", Except.ok ⟨none, none, none, none⟩, none⟩).2.1 =
      ⟨200, Body.text "Backend is running!", none⟩ := by
  have T := secret_load_failure_fails_open failingStore
    ⟨"openai-api-key", by simp, "permission denied", rfl⟩
  exact ⟨⟨"openai-api-key", by simp, "permission denied", rfl⟩,
    T.1, T.2.1, T.2.2 stubUps
      ⟨"GET", "/", Except.ok ⟨none, none, none, none⟩, none⟩ rfl rfl⟩

/-- Claim C7: with the AI provider key present, `/synthesize` returns 400
when `text` is empty; when `text` is non-empty and the upstream
text-to-speech call succeeds, it returns 200 whose body is the raw audio
bytes from the upstream and whose Content-Type header is audio/mpeg. -/
theorem synthesize_empty_400_success_audio
    (creds : Credentials) (ups : Upstreams)
    (identityArg nameArg : Option String)
    (messagesArg : Option (List Message))
    (hkey : pyNot creds.openai_api_key = false) :
    synthesize_endpoint creds ups
        (Except.ok ⟨identityArg, nameArg, messagesArg, some ""⟩) =
      (⟨400, Body.json [("error", "No text provided")], none⟩, []) ∧
    ∀ (s : String) (audio : List Nat), s ≠ "" →
      ups.speechCreate "gpt-4o-mini-tts" "alloy" s "mp3" = Except.ok audio →
      synthesize_endpoint creds ups
          (Except.ok ⟨identityArg, nameArg, messagesArg, some s⟩) =
        (⟨200, Body.binary audio, some "audio/mpeg"⟩,
          [UpstreamCall.speech "gpt-4o-mini-tts" "alloy" s "mp3"]) := by
  constructor
  · unfold synthesize_endpoint
    rw [hkey]
    rfl
  · intro s audio hs hok
    unfold synthesize_endpoint
    rw [hkey]
    have hsn : pyNot (some s) = false := by simp [pyNot, hs]
    simp [hsn, hok]

/-- Witness for C7: with the key present, `text=""` gets 400, and
`text="hello"` with the stub upstream gets 200 audio/mpeg carrying the
stub's bytes. -/
theorem synthesize_empty_400_success_audio_witness :
    pyNot (Credentials.mk (some "k") none none).openai_api_key = false ∧
    synthesize_endpoint ⟨some "k", none, none⟩ stubUps
        (Except.ok ⟨none, none, none, some ""⟩) =
      (⟨400, Body.json [("error", "No text provided")], none⟩, []) ∧
    synthesize_endpoint ⟨some "k", none, none⟩ stubUps
        (Except.ok ⟨none, none, none, some "hello"⟩) =
      (⟨200, Body.binary ["hello".length], some "audio/mpeg"⟩,
        [UpstreamCall.speech "gpt-4o-mini-tts" "alloy" "hello" "mp3"]) := by
  have T := synthesize_empty_400_success_audio ⟨some "k", none, none⟩
    stubUps none none none rfl
  exact ⟨rfl, T.1, T.2 "hello" ["hello".length] (by decide) rfl⟩

/-- Claim C8: with the AI provider key present, `/transcribe` returns 400
with {error:"No audio file part"} when the multipart form has no
`audio_file` part, and 400 when the part is present with an empty
filename; neither case performs an upstream call. -/
theorem transcribe_missing_or_unnamed_file_400
    (creds : Credentials) (ups : Upstreams)
    (hkey : pyNot creds.openai_api_key = false) :
    transcribe_endpoint creds ups none =
      (⟨400, Body.json [("error", "No audio file part")], none⟩, []) ∧
    ∀ f : FilePart, f.filename = "" →
      transcribe_endpoint creds ups (some f) =
        (⟨400, Body.json [("error", "No selected file")], none⟩, []) := by
  constructor
  · unfold transcribe_endpoint
    rw [hkey]
    rfl
  · intro f hf
    unfold transcribe_endpoint
    rw [hkey]
    simp [hf]

/-- Witness for C8: with the key present, a form without the part and a
form whose part has an empty filename both get 400 and no upstream call. -/
theorem transcribe_missing_or_unnamed_file_400_witness :
    pyNot (Credentials.mk (some "k") none none).openai_api_key = false ∧
    transcribe_endpoint ⟨some "k", none, none⟩ stubUps none =
      (⟨400, Body.json [("error", "No audio file part")], none⟩, []) ∧
    transcribe_endpoint ⟨some "k", none, none⟩ stubUps
        (some ⟨"", "audio/wav", [1, 2]⟩) =
      (⟨400, Body.json [("error", "No selected file")], none⟩, []) := by
  have T := transcribe_missing_or_unnamed_file_400 ⟨some "k", none, none⟩
    stubUps rfl
  exact ⟨rfl, T.1, T.2 ⟨"", "audio/wav", [1, 2]⟩ rfl⟩

/-- Claim C10: a credential whose loaded value is the empty string is
treated exactly as an absent one: the presence checks are Python
truthiness, so each credential-dependent route returns the 500
configuration error and contacts no upstream. -/
theorem empty_string_credential_treated_absent
    (creds : Credentials) (ups : Upstreams)
    (dataArg : Except Nat JsonBody) (audioFileArg : Option FilePart) :
    (creds.livekit_api_key = some "" ∨ creds.livekit_api_secret = some "" →
      generate_token creds ups dataArg =
        (⟨500, Body.json [("error", "LiveKit configuration missing")], none⟩,
          [])) ∧
    (creds.openai_api_key = some "" →
      chat_endpoint creds ups dataArg =
        (⟨500, Body.json [("error", "OpenAI configuration missing")], none⟩,
          []) ∧
      transcribe_endpoint creds ups audioFileArg =
        (⟨500, Body.json [("error", "OpenAI configuration missing")], none⟩,
          []) ∧
      synthesize_endpoint creds ups dataArg =
        (⟨500, Body.json [("error", "OpenAI configuration missing")], none⟩,
          [])) := by
  constructor
  · intro h
    unfold generate_token
    rcases h with h | h <;> simp [pyNot, h]
  · intro h
    refine ⟨?_, ?_, ?_⟩
    · unfold chat_endpoint
      simp [pyNot, h]
    · unfold transcribe_endpoint
      simp [pyNot, h]
    · unfold synthesize_endpoint
      simp [pyNot, h]

/-- Witness for C10 at the all-empty-string credential set: every
credential-dependent route answers its 500 configuration error with an
empty upstream trace. -/
theorem empty_string_credential_treated_absent_witness :
    Credentials.livekit_api_key ⟨some "", some "", some ""⟩ = some "" ∧
    generate_token ⟨some "", some "", some ""⟩ stubUps
        (Except.ok ⟨none, none, none, none⟩) =
      (⟨500, Body.json [("error", "LiveKit configuration missing")], none⟩,
        []) ∧
    chat_endpoint ⟨some "", some "", some ""⟩ stubUps
        (Except.ok ⟨none, none, none, none⟩) =
      (⟨500, Body.json [("error", "OpenAI configuration missing")], none⟩,
        []) ∧
    transcribe_endpoint ⟨some "", some "", some ""⟩ stubUps none =
      (⟨500, Body.json [("error", "OpenAI configuration missing")], none⟩,
        []) ∧
    synthesize_endpoint ⟨some "", some "", some ""⟩ stubUps
        (Except.ok ⟨none, none, none, none⟩) =
      (⟨500, Body.json [("error", "OpenAI configuration missing")], none⟩,
        []) := by
  have T := empty_string_credential_treated_absent ⟨some "", some "", some ""⟩
    stubUps (Except.ok ⟨none, none, none, none⟩) none
  exact ⟨rfl, T.1 (Or.inl rfl), (T.2 rfl).1, (T.2 rfl).2.1, (T.2 rfl).2.2⟩

end Shrink
